import Mathlib

/-!
Verification model of the ESMON build and install pipelines
(`pyesmon/esmon_build.py` and `pyesmon/esmon_install.py`).

Every remote or local shell invocation of the source is modelled as an
`Act` appended to a trace, and the response of the outside world (exit
statuses, captured stdout, checksums, directory listings) is supplied by
a per-function "world" structure whose fields correspond one-to-one to
the call sites of the source.  Directory contents that the functions
themselves mutate (delete / download files) are threaded explicitly as
association lists from file name to content checksum.
-/

set_option autoImplicit false

/-- One externally visible action of the pipeline: a shell command run on a
host, a file transfer, a file removal through the host handle, or a git
clone through the helper of the common module. -/
inductive Act where
  | run (host : String) (cmd : String)
  | sendFile (host : String) (src : String) (dst : String)
  | getFile (host : String) (src : String) (dst : String)
  | removeFile (host : String) (path : String)
  | clone (path : String) (url : String) (branch : String)
  deriving DecidableEq, Repr

/-- Modelled from the spec: the `ssh_host` module (outside this tree) defines
exactly two recognized distribution identifiers. -/
def DISTRO_RHEL6 : String := "rhel6"

/-- Modelled from the spec: second recognized distribution identifier. -/
def DISTRO_RHEL7 : String := "rhel7"

def ESMON_BUILD_CONFIG_FNAME : String := "esmon_build.conf"

def ESMON_BUILD_CONFIG : String := "/etc/" ++ ESMON_BUILD_CONFIG_FNAME

def DEPENDENT_STRING : String := "dependent"

def COLLECTD_STRING : String := "collectd"

def COLLECT_GIT_STRING : String := COLLECTD_STRING ++ ".git"

def X86_64_STRING : String := "x86_64"

def RPM_STRING : String := "RPMS"

def RPM_PATH_STRING : String := RPM_STRING ++ "/" ++ X86_64_STRING

def COPYING_STRING : String := "copying"

def COLLECTD_RPM_NAMES : List String :=
  ["collectd", "collectd-disk", "collectd-filedata",
   "collectd-ime", "collectd-sensors", "collectd-ssh",
   "libcollectdclient"]

def SERVER_STRING : String := "server"

def ESMON_BUILD_LOG_DIR : String := "/var/log"

/-! ### Filesystem model

A directory is an association list from file name to the sha256 checksum
its content would hash to.  `ls` output corresponds to the list of keys. -/

def fsLookup (fs : List (String × String)) (f : String) : Option String :=
  List.lookup f fs

def fsErase (fs : List (String × String)) (f : String) : List (String × String) :=
  fs.filter (fun p => p.1 ≠ f)

def fsInsert (fs : List (String × String)) (f h : String) : List (String × String) :=
  fsErase fs f ++ [(f, h)]

/-! ### `download_dependent_rpms` (esmon_build.py lines 38-176) -/

/-- World oracle for `download_dependent_rpms`: one field per call site of
the remote-host contract. -/
structure DepWorld where
  /-- exit status of `yumdb sync` is zero -/
  yumdbSyncOk : Bool
  /-- exit status of `ls dependent_dir` is zero -/
  lsOk : Bool
  /-- exit status of the bulk `yum install -y ...` is zero -/
  yumInstallOk : Bool
  /-- `rpm -q name`: `none` when the command fails, otherwise the
  whitespace-split stdout tokens -/
  rpmQ : String → Option (List String)
  /-- `sh_yumdb_sha256 fullname`: recorded checksum of the installed RPM -/
  yumdbSha : String → Option String
  /-- `sh_remove_file path` returns zero -/
  removeOk : String → Bool
  /-- `yumdownloader` for this RPM name exits zero -/
  downloadOk : String → Bool
  /-- checksum of the file the downloader writes (`none`: no file appears) -/
  downloadSha : String → Option String

/-- Modelled from the spec: the required dependency package name lists
(`ESMON_CLIENT_DEPENDENT_RPMS`, `ESMON_SERVER_DEPENDENT_RPMS`,
`ESMON_INSTALL_DEPENDENT_RPMS`) live in the `esmon_common` module, which is
outside this tree; they are taken as parameters and combined exactly as
esmon_build.py lines 70-78 combine them (client list, plus the server and
install lists deduplicated in on RHEL7). -/
def dependentRpmList (client server install : List String) (distro : String) :
    List String :=
  if distro = DISTRO_RHEL7 then
    let l1 := server.foldl (fun acc r => if r ∈ acc then acc else acc ++ [r]) client
    install.foldl (fun acc r => if r ∈ acc then acc else acc ++ [r]) l1
  else client

/-- Per-package loop of `download_dependent_rpms` (lines 96-167).  State:
the mutable `existing_rpm_fnames` list, the directory contents, the trace.
Returns the usual `(exit status, existing, fs, trace)`. -/
def depLoop (w : DepWorld) (host dir : String) :
    List String → List String → List (String × String) → List Act →
    Int × List String × List (String × String) × List Act
  | [], existing, fs, tr => (0, existing, fs, tr)
  | rpm_name :: rest, existing, fs, tr =>
    let tr := tr ++ [Act.run host ("rpm -q " ++ rpm_name)]
    match w.rpmQ rpm_name with
    | none => (-1, existing, fs, tr)
    | some fullnames =>
      match fullnames with
      | [rpm_fullname] =>
        match w.yumdbSha rpm_fullname with
        | none => (-1, existing, fs, tr)
        | some sha256sum =>
          let rpm_filename := rpm_fullname ++ ".rpm"
          let fpath := dir ++ "/" ++ rpm_filename
          if rpm_filename ∈ existing then
            if fsLookup fs rpm_filename = some sha256sum then
              -- found with correct sha256sum: drop it from the existing list
              depLoop w host dir rest (existing.erase rpm_filename) fs tr
            else
              -- wrong sha256sum: delete it; note the source does NOT remove
              -- the name from existing_rpm_fnames on this path
              let tr := tr ++ [Act.removeFile host fpath]
              if w.removeOk fpath then
                let fs := fsErase fs rpm_filename
                let tr := tr ++ [Act.run host
                  ("cd " ++ dir ++ " && yumdownloader -x \\*i686 --archlist=x86_64 " ++ rpm_name)]
                if w.downloadOk rpm_name then
                  let fs := match w.downloadSha rpm_name with
                    | some h => fsInsert fs rpm_filename h
                    | none => fs
                  if fsLookup fs rpm_filename = some sha256sum then
                    depLoop w host dir rest existing fs tr
                  else (-1, existing, fs, tr)
                else (-1, existing, fs, tr)
              else (-1, existing, fs, tr)
          else
            let tr := tr ++ [Act.run host
              ("cd " ++ dir ++ " && yumdownloader -x \\*i686 --archlist=x86_64 " ++ rpm_name)]
            if w.downloadOk rpm_name then
              let fs := match w.downloadSha rpm_name with
                | some h => fsInsert fs rpm_filename h
                | none => fs
              if fsLookup fs rpm_filename = some sha256sum then
                depLoop w host dir rest existing fs tr
              else (-1, existing, fs, tr)
            else (-1, existing, fs, tr)
      | _ => (-1, existing, fs, tr)

/-- Final eviction loop of `download_dependent_rpms` (lines 169-175): every
name still listed in `existing_rpm_fnames` is removed from the directory. -/
def depEvict (w : DepWorld) (host dir : String) :
    List String → List (String × String) → List Act →
    Int × List (String × String) × List Act
  | [], fs, tr => (0, fs, tr)
  | f :: rest, fs, tr =>
    let fpath := dir ++ "/" ++ f
    let tr := tr ++ [Act.removeFile host fpath]
    if w.removeOk fpath then depEvict w host dir rest (fsErase fs f) tr
    else (-1, fs, tr)

/-- `download_dependent_rpms(host, dependent_dir, distro)`: returns the exit
status, the final contents of the dependent directory, and the action
trace. -/
def download_dependent_rpms (w : DepWorld) (fs : List (String × String))
    (host dir distro : String) (client server install : List String) :
    Int × List (String × String) × List Act :=
  let tr := [Act.run host "yumdb sync"]
  if ¬ w.yumdbSyncOk then (-1, fs, tr) else
  let tr := tr ++ [Act.run host ("ls " ++ dir)]
  if ¬ w.lsOk then (-1, fs, tr) else
  let existing_rpm_fnames := fs.map Prod.fst
  let dependent_rpms := dependentRpmList client server install distro
  let tr := tr ++ [Act.run host
    (dependent_rpms.foldl (fun c r => c ++ " " ++ r) "yum install -y")]
  if ¬ w.yumInstallOk then (-1, fs, tr) else
  match depLoop w host dir dependent_rpms existing_rpm_fnames fs tr with
  | (ret, existing, fs, tr) =>
    if ret ≠ 0 then (ret, fs, tr)
    else depEvict w host dir existing fs tr

/-! ### Regular-expression model for the prune pattern

`collectd_build_check` prunes with
`re.match(r"collectd-\S+-%s.el%s.x86_64.rpm" % (vr, dn), fname)`.
The only constructs appearing in that pattern (for the version/release
strings actually produced) are literal characters, the wildcard `.` and
the token `\S+`; the matcher below implements exactly those, anchored at
the start and allowing trailing garbage, as `re.match` does. -/

inductive PatAtom where
  | lit (c : Char)
  | dot
  | plus
  deriving DecidableEq, Repr

def patAtoms : List Char → List PatAtom
  | '\\' :: 'S' :: '+' :: rest => PatAtom.plus :: patAtoms rest
  | '.' :: rest => PatAtom.dot :: patAtoms rest
  | c :: rest => PatAtom.lit c :: patAtoms rest
  | [] => []

/-- Prefix matching of a list of pattern atoms against a character list;
`plus` consumes one or more non-whitespace characters (backtracking). -/
def atomsMatch : List PatAtom → List Char → Bool
  | [], _ => true
  | PatAtom.lit c :: ps, x :: xs => x = c && atomsMatch ps xs
  | PatAtom.dot :: ps, _ :: xs => atomsMatch ps xs
  | PatAtom.plus :: ps, x :: xs =>
    !x.isWhitespace && (atomsMatch ps xs || atomsMatch (PatAtom.plus :: ps) xs)
  | _ :: _, [] => false
  termination_by _ cs => cs.length

/-- `re.match` of the prune pattern of esmon_build.py lines 442-446. -/
def collectdRpmMatch (vr dn fname : String) : Bool :=
  atomsMatch (patAtoms ("collectd-\\S+-" ++ vr ++ ".el" ++ dn ++ ".x86_64.rpm").toList)
    fname.toList

/-! ### `collectd_build` (esmon_build.py lines 179-345) -/

/-- World oracle for `collectd_build`. -/
structure CBWorld where
  /-- `sh_send_file(collectd_git_path, workspace)` succeeds -/
  sendOk : Bool
  /-- the build.sh/configure/make dist-bzip2 command exits zero -/
  buildOk : Bool
  /-- `ls collectd-*.tar.bz2`: `none` on failure, else stdout tokens -/
  lsTarball : Option (List String)
  /-- the tar/mv/tar repackaging command exits zero -/
  retarOk : Bool
  /-- the `mkdir {BUILD,...} && mv ... SOURCES` command exits zero -/
  mkdirSrcOk : Bool
  /-- the rpmbuild command exits zero -/
  rpmbuildOk : Bool
  /-- local `mkdir -p local_distro_rpm_dir` exits zero -/
  mkdirLocalOk : Bool
  /-- local `rm local_collectd_rpm_dir -fr` exits zero -/
  rmLocalOk : Bool
  /-- `sh_get_file` of the built RPMs succeeds -/
  getOk : Bool
  /-- local `mv` of the copied x86_64 dir exits zero -/
  mvOk : Bool

/-- Distro-number selection shared by lines 186-191 and 374-379. -/
def distroNumber (distro : String) : Option String :=
  if distro = DISTRO_RHEL6 then some "6"
  else if distro = DISTRO_RHEL7 then some "7"
  else none

/-- `collectd_build(workspace, build_host, local_host, collectd_git_path,
iso_cached_dir, collectd_tarball_name, distro)`: exit status and trace. -/
def collectd_build (w : CBWorld)
    (workspace bh lh collectd_git_path iso_cached_dir collectd_tarball_name
     distro : String) : Int × List Act :=
  match distroNumber distro with
  | none => (-1, [])
  | some distro_number =>
    let local_distro_rpm_dir := iso_cached_dir ++ "/" ++ RPM_STRING ++ "/" ++ distro
    let local_collectd_rpm_copying_dir := local_distro_rpm_dir ++ "/" ++ X86_64_STRING
    let local_collectd_rpm_dir := local_distro_rpm_dir ++ "/" ++ COLLECTD_STRING
    let host_collectd_git_dir := workspace ++ "/" ++ COLLECT_GIT_STRING
    let host_collectd_rpm_dir := host_collectd_git_dir ++ "/" ++ RPM_PATH_STRING
    let tr := [Act.sendFile bh collectd_git_path workspace]
    if ¬ w.sendOk then (-1, tr) else
    let tr := tr ++ [Act.run bh ("cd " ++ host_collectd_git_dir ++
      " && mkdir -p libltdl/config && sh ./build.sh && ./configure && make dist-bzip2")]
    if ¬ w.buildOk then (-1, tr) else
    let tr := tr ++ [Act.run bh ("cd " ++ host_collectd_git_dir ++
      " && ls collectd-*.tar.bz2")]
    match w.lsTarball with
    | none => (-1, tr)
    | some collectd_tarballs =>
      match collectd_tarballs with
      | [collectd_tarball_fname] =>
        if collectd_tarball_fname.endsWith ".tar.bz2" ∧
            8 < collectd_tarball_fname.length then
          let collectd_tarball_current_name := collectd_tarball_fname.dropRight 8
          let tr := tr ++ [Act.run bh ("cd " ++ host_collectd_git_dir ++
            " && tar jxf " ++ collectd_tarball_fname ++
            " && mv " ++ collectd_tarball_current_name ++ " " ++ collectd_tarball_name ++
            " && tar cjf " ++ collectd_tarball_name ++ ".tar.bz2 " ++ collectd_tarball_name)]
          if ¬ w.retarOk then (-1, tr) else
          let tr := tr ++ [Act.run bh ("cd " ++ host_collectd_git_dir ++
            " && mkdir \x7bBUILD,RPMS,SOURCES,SRPMS\x7d && mv " ++
            collectd_tarball_name ++ ".tar.bz2 SOURCES")]
          if ¬ w.mkdirSrcOk then (-1, tr) else
          let tr := tr ++ [Act.run bh ("cd " ++ host_collectd_git_dir ++
            " && rpmbuild -ba --with write_tsdb --with nfs --without java " ++
            "--without amqp --without gmond --without nut --without pinba " ++
            "--without ping --without varnish --without dpdkstat " ++
            "--without turbostat --without redis --without write_redis " ++
            "--without gps --without lvm --define \"_topdir " ++
            host_collectd_git_dir ++ "\" " ++
            "--define=\"rev $(git rev-parse --short HEAD)\" " ++
            "--define=\"dist .el" ++ distro_number ++ "\" " ++
            "contrib/redhat/collectd.spec")]
          if ¬ w.rpmbuildOk then (-1, tr) else
          let tr := tr ++ [Act.run lh ("mkdir -p " ++ local_distro_rpm_dir)]
          if ¬ w.mkdirLocalOk then (-1, tr) else
          let tr := tr ++ [Act.run lh ("rm " ++ local_collectd_rpm_dir ++ " -fr")]
          if ¬ w.rmLocalOk then (-1, tr) else
          let tr := tr ++ [Act.getFile bh host_collectd_rpm_dir local_distro_rpm_dir]
          if ¬ w.getOk then (-1, tr) else
          let tr := tr ++ [Act.run lh ("mv " ++ local_collectd_rpm_copying_dir ++
            " " ++ local_collectd_rpm_dir)]
          if ¬ w.mvOk then (-1, tr) else
          (0, tr)
        else (-1, tr)
      | _ => (-1, tr)

/-! ### `collectd_build_check` (esmon_build.py lines 348-465) -/

/-- The expected full RPM file names for a version-release and distro
number (lines 382-385). -/
def collectdRpmFullnames (vr dn : String) : List String :=
  COLLECTD_RPM_NAMES.map (fun n => n ++ "-" ++ vr ++ ".el" ++ dn ++ ".x86_64.rpm")

/-- The presence-check loop (lines 381-398 and again 423-440): each expected
name is searched in the listing and removed from it; the first missing name
aborts with `none`, otherwise the remaining listing is returned. -/
def checkLoop : List String → List String → Option (List String)
  | [], fnames => some fnames
  | e :: es, fnames =>
    if e ∈ fnames then checkLoop es (fnames.erase e) else none

/-- World oracle for `collectd_build_check`. -/
structure CBCWorld where
  /-- the `mkdir -p dir && ls dir` command exits zero -/
  lsOk : Bool
  /-- oracle of the nested `collectd_build` call -/
  cb : CBWorld
  /-- `ls` listing of the collectd RPM dir after a build (`none`: command
  failed) -/
  postLs : Option (List String)
  /-- `rm -f fpath` during the prune pass exits zero -/
  rmOk : String → Bool

/-- Result of `collectd_build_check`: exit status, final directory
contents, whether `collectd_build` was invoked, and the trace. -/
structure CBCRes where
  ret : Int
  fs : List String
  built : Bool
  trace : List Act
  deriving Repr

/-- Prune pass of the already-cached branch (lines 441-464). -/
def pruneLoop (w : CBCWorld) (lh lcrd vr dn : String) :
    List String → List String → List Act → Int × List String × List Act
  | [], fs, tr => (0, fs, tr)
  | f :: rest, fs, tr =>
    if collectdRpmMatch vr dn f then pruneLoop w lh lcrd vr dn rest fs tr
    else
      let fpath := lcrd ++ "/" ++ f
      let tr := tr ++ [Act.run lh ("rm -f " ++ fpath)]
      if w.rmOk fpath then pruneLoop w lh lcrd vr dn rest (fs.erase f) tr
      else (-1, fs, tr)

/-- `collectd_build_check(workspace, build_host, local_host,
collectd_git_path, iso_cached_dir, collectd_version_release,
collectd_tarball_name, distro)`.  `fs0` is the initial content (file name
list) of the local collectd RPM cache directory, which the initial
`mkdir -p && ls` reports. -/
def collectd_build_check (w : CBCWorld) (fs0 : List String)
    (workspace bh lh collectd_git_path iso_cached_dir vr tname distro : String) :
    CBCRes :=
  let local_distro_rpm_dir := iso_cached_dir ++ "/" ++ RPM_STRING ++ "/" ++ distro
  let local_collectd_rpm_dir := local_distro_rpm_dir ++ "/" ++ COLLECTD_STRING
  let tr := [Act.run lh ("mkdir -p " ++ local_collectd_rpm_dir ++
    " && ls " ++ local_collectd_rpm_dir)]
  if ¬ w.lsOk then ⟨-1, fs0, false, tr⟩ else
  match distroNumber distro with
  | none => ⟨-1, fs0, false, tr⟩
  | some distro_number =>
    match checkLoop (collectdRpmFullnames vr distro_number) fs0 with
    | none =>
      -- some expected RPM is missing: build, then re-list and re-check
      match collectd_build w.cb workspace bh lh collectd_git_path
        iso_cached_dir tname distro with
      | (bret, btr) =>
        let tr := tr ++ btr
        if bret ≠ 0 then ⟨-1, fs0, true, tr⟩ else
        let tr := tr ++ [Act.run lh ("ls " ++ local_collectd_rpm_dir)]
        match w.postLs with
        | none => ⟨-1, fs0, true, tr⟩
        | some fs1 =>
          match checkLoop (collectdRpmFullnames vr distro_number) fs1 with
          | none => ⟨-1, fs1, true, tr⟩
          | some _ => ⟨0, fs1, true, tr⟩
    | some leftover =>
      match pruneLoop w lh local_collectd_rpm_dir vr distro_number leftover fs0 tr with
      | (ret, fs1, tr1) => ⟨ret, fs1, false, tr1⟩

/-! ### `host_build` (esmon_build.py lines 468-648) -/

/-- World oracle for `host_build`, embedding the oracles of the nested
`collectd_build_check` and `download_dependent_rpms` calls. -/
structure HBWorld where
  cbc : CBCWorld
  dep : DepWorld
  /-- `yum update -y` exits zero -/
  yumUpdateOk : Bool
  /-- `rpm -qa | grep i686` exits zero (i686 RPMs present) -/
  grepI686Found : Bool
  /-- `rpm -qa | grep i686 | xargs rpm -e` exits zero -/
  rpmEI686Ok : Bool
  /-- the big `yum install ... -y` of build dependencies exits zero -/
  yumInstallOk : Bool
  /-- `mkdir -p workspace` on the build host exits zero -/
  mkdirWsOk : Bool
  /-- `test -e local_dependent_rpm_dir` exits zero (path exists) -/
  testEZero : Bool
  /-- `test -d local_dependent_rpm_dir` exits zero (is a directory) -/
  testDZero : Bool
  /-- `rm -f local_dependent_rpm_dir` exits zero -/
  rmDepFileOk : Bool
  /-- `sh_send_file` of the cached dependent dir succeeds -/
  sendDepOk : Bool
  /-- `mkdir -p host_dependent_rpm_dir` exits zero -/
  mkdirHostDepOk : Bool
  /-- `rm -fr copying && mkdir -p copying` exits zero -/
  rmMkCopyingOk : Bool
  /-- `sh_get_file` of the downloaded dependent RPMs succeeds -/
  getDepOk : Bool
  /-- the final `rm -fr ... && mv ... && rm -rf ...` exits zero -/
  finalMvOk : Bool

/-- The fixed build-dependency installation command of lines 527-541. -/
def hostBuildYumCmd : String :=
  "yum install libgcrypt-devel libtool-ltdl-devel curl-devel " ++
  "libxml2-devel yajl-devel libdbi-devel libpcap-devel " ++
  "OpenIPMI-devel iptables-devel libvirt-devel " ++
  "libvirt-devel libmemcached-devel mysql-devel libnotify-devel " ++
  "libesmtp-devel postgresql-devel rrdtool-devel " ++
  "lm_sensors-libs lm_sensors-devel net-snmp-devel libcap-devel " ++
  "lvm2-devel libmodbus-devel libmnl-devel iproute-devel " ++
  "hiredis-devel libatasmart-devel protobuf-c-devel " ++
  "mosquitto-devel gtk2-devel openldap-devel " ++
  "zeromq3-devel libssh2-devel rrdtool-devel rrdtool " ++
  "createrepo mkisofs yum-utils redhat-lsb unzip " ++
  "epel-release perl-Regexp-Common python-pep8 pylint " ++
  "lua-devel byacc ganglia-devel libmicrohttpd-devel " ++
  "riemann-c-client-devel xfsprogs-devel uthash-devel " ++
  "perl-ExtUtils-Embed -y"

/-- `host_build(workspace, build_host, local_host, collectd_git_path,
iso_cached_dir, collectd_version_release, collectd_tarball_name, distro)`.
`bdistro` is what `build_host.sh_distro()` reports; `cfs` is the local
collectd RPM cache listing; `dfs` the dependent directory contents on the
build host. -/
def host_build (w : HBWorld) (cfs : List String) (dfs : List (String × String))
    (client server install : List String)
    (workspace bh bdistro lh collectd_git_path iso_cached_dir vr tname
     distro : String) : Int × List Act :=
  if distro ≠ bdistro then (-1, []) else
  let local_distro_rpm_dir := iso_cached_dir ++ "/" ++ RPM_STRING ++ "/" ++ distro
  let local_dependent_rpm_dir := local_distro_rpm_dir ++ "/" ++ DEPENDENT_STRING
  let local_copying_rpm_dir := local_distro_rpm_dir ++ "/" ++ COPYING_STRING
  let local_copying_dependent_rpm_dir := local_copying_rpm_dir ++ "/" ++ DEPENDENT_STRING
  let host_dependent_rpm_dir := workspace ++ "/" ++ DEPENDENT_STRING
  let tr := [Act.run bh "yum update -y"]
  if ¬ w.yumUpdateOk then (-1, tr) else
  let tr := tr ++ [Act.run bh "rpm -qa | grep i686"]
  if w.grepI686Found ∧ ¬ w.rpmEI686Ok then
    (-1, tr ++ [Act.run bh "rpm -qa | grep i686 | xargs rpm -e"])
  else
  let tr := if w.grepI686Found then
      tr ++ [Act.run bh "rpm -qa | grep i686 | xargs rpm -e"]
    else tr
  -- result deliberately ignored by the source
  let tr := tr ++ [Act.run bh "rpm -e zeromq-devel"]
  let tr := tr ++ [Act.run bh hostBuildYumCmd]
  if ¬ w.yumInstallOk then (-1, tr) else
  let tr := tr ++ [Act.run bh ("mkdir -p " ++ workspace)]
  if ¬ w.mkdirWsOk then (-1, tr) else
  match collectd_build_check w.cbc cfs workspace bh lh collectd_git_path
    iso_cached_dir vr tname distro with
  | cbcres =>
    let tr := tr ++ cbcres.trace
    if cbcres.ret ≠ 0 then (-1, tr) else
    let tr := tr ++ [Act.run lh ("test -e " ++ local_dependent_rpm_dir)]
    let afterCache : Bool → List Act → Int × List Act := fun cached tr =>
      let cont : List Act → Int × List Act := fun tr =>
        match download_dependent_rpms w.dep dfs bh host_dependent_rpm_dir
          distro client server install with
        | (dret, _, dtr) =>
          let tr := tr ++ dtr
          if dret ≠ 0 then (dret, tr) else
          let tr := tr ++ [Act.run lh ("rm -fr " ++ local_copying_rpm_dir ++
            " && mkdir -p " ++ local_copying_rpm_dir)]
          if ¬ w.rmMkCopyingOk then (-1, tr) else
          let tr := tr ++ [Act.getFile bh host_dependent_rpm_dir local_copying_rpm_dir]
          if ¬ w.getDepOk then (-1, tr) else
          let tr := tr ++ [Act.run lh ("rm -fr " ++ local_dependent_rpm_dir ++
            " && mv " ++ local_copying_dependent_rpm_dir ++
            " " ++ local_dependent_rpm_dir ++
            " && rm -rf " ++ local_copying_rpm_dir)]
          if ¬ w.finalMvOk then (-1, tr) else (0, tr)
      if cached then
        let tr := tr ++ [Act.sendFile bh local_dependent_rpm_dir workspace]
        if ¬ w.sendDepOk then (-1, tr) else cont tr
      else
        let tr := tr ++ [Act.run bh ("mkdir -p " ++ host_dependent_rpm_dir)]
        if ¬ w.mkdirHostDepOk then (-1, tr) else cont tr
    if w.testEZero then
      let tr := tr ++ [Act.run lh ("test -d " ++ local_dependent_rpm_dir)]
      if ¬ w.testDZero then
        let tr := tr ++ [Act.run lh ("rm -f " ++ local_dependent_rpm_dir)]
        if ¬ w.rmDepFileOk then (-1, tr) else afterCache false tr
      else afterCache true tr
    else afterCache false tr

/-! ### Grafana plugin download (esmon_build.py lines 651-710) -/

/-- World oracle for the plugin downloads and the surrounding
`esmon_do_build`. -/
structure DBWorld where
  /-- what `local_host.sh_distro()` reports -/
  localDistro : String
  /-- what the CentOS6 build host's `sh_distro()` reports -/
  c6Distro : String
  hbC6 : HBWorld
  c6cfs : List String
  c6dfs : List (String × String)
  hbL : HBWorld
  lcfs : List String
  ldfs : List (String × String)
  /-- `mkdir -p rpm_dir` exits zero -/
  mkdirRpmOk : Bool
  /-- Modelled from the spec: `esmon_common.clone_src_from_git` (outside
  this tree) clones/updates the collectd checkout; `true` = success -/
  cloneOk : Bool
  /-- `git rev-parse --short HEAD` stdout (`none`: command failed) -/
  gitRev : Option String
  /-- `grep Version collectd.spec | ...` stdout (`none`: command failed) -/
  grepVersion : Option String
  /-- `grep Release collectd.spec | ...` stdout (`none`: command failed) -/
  grepRelease : Option String
  /-- `mkdir -p local_server_rpm_dir` exits zero -/
  mkdirServerOk : Bool
  /-- `test -e` of a server RPM path exits zero (file already cached) -/
  serverExists : String → Bool
  /-- `wget` of a server RPM exits zero -/
  wgetOk : String → Bool
  /-- `os.listdir(local_server_rpm_dir)` after the downloads -/
  serverListdir : List String
  /-- `rm -fr` of an unknown file in the server dir exits zero -/
  rmServerExtraOk : String → Bool
  /-- Modelled from the spec: `esmon_common.GRAFANA_PLUGIN_GITS` (outside
  this tree), as a name-to-URL list -/
  plugins : List (String × String)
  /-- `test -e panel_git_path` exits zero (checkout already present) -/
  pluginTestE : String → Bool
  /-- `git clone` of a plugin exits zero -/
  pluginCloneOk : String → Bool
  /-- `git pull` of a plugin exits zero -/
  pluginPullOk : String → Bool
  /-- Modelled from the spec: `esmon_common.GRAFANA_PLUGIN_FILENAMES`
  (outside this tree), the expected marker files of each checkout -/
  pluginFilenames : List String
  /-- `test -e panel_git_path/filename` exits zero -/
  pluginFileExists : String → String → Bool
  /-- `os.listdir(iso_cached_dir)` near the end of the build -/
  isoListdir : List String
  /-- `rm -fr` of an unknown file in the cache root exits zero -/
  rmIsoExtraOk : String → Bool
  /-- the final autogen/configure/make command exits zero -/
  makeOk : Bool
  /-- `rm -fr centos6_workspace` exits zero -/
  rmC6WsOk : Bool

/-- Marker-file check loop of `esmon_download_grafana_plugin`
(lines 683-696). -/
def pluginFilesCheck (w : DBWorld) (lh panel_git_path : String) :
    List String → List Act → Int × List Act
  | [], tr => (0, tr)
  | f :: rest, tr =>
    let filepath := panel_git_path ++ "/" ++ f
    let tr := tr ++ [Act.run lh ("test -e " ++ filepath)]
    if w.pluginFileExists panel_git_path f then
      pluginFilesCheck w lh panel_git_path rest tr
    else (-1, tr)

/-- `esmon_download_grafana_plugin(local_host, iso_cached_dir, plugin_name,
git_url)` (lines 651-697). -/
def esmon_download_grafana_plugin (w : DBWorld)
    (lh iso_cached_dir plugin_name git_url : String) : Int × List Act :=
  let panel_git_path := iso_cached_dir ++ "/" ++ plugin_name
  let tr := [Act.run lh ("test -e " ++ panel_git_path)]
  if ¬ w.pluginTestE plugin_name then
    let tr := tr ++ [Act.run lh ("git clone " ++ git_url ++ " " ++ panel_git_path)]
    if ¬ w.pluginCloneOk plugin_name then (-1, tr)
    else pluginFilesCheck w lh panel_git_path w.pluginFilenames tr
  else
    let tr := tr ++ [Act.run lh ("cd " ++ panel_git_path ++ " && git pull")]
    if ¬ w.pluginPullOk plugin_name then (-1, tr)
    else pluginFilesCheck w lh panel_git_path w.pluginFilenames tr

/-- `esmon_download_grafana_plugins` (lines 700-710). -/
def esmon_download_grafana_plugins (w : DBWorld) (lh iso_cached_dir : String) :
    List (String × String) → List Act → Int × List Act
  | [], tr => (0, tr)
  | (plugin_name, git_url) :: rest, tr =>
    match esmon_download_grafana_plugin w lh iso_cached_dir plugin_name git_url with
    | (ret, ptr) =>
      if ret ≠ 0 then (-1, tr ++ ptr)
      else esmon_download_grafana_plugins w lh iso_cached_dir rest (tr ++ ptr)

/-! ### `parse_host_configs` (esmon_build.py lines 713-749) -/

/-- One entry of the `ssh_hosts` config list.  `host_id` is `none` when the
YAML value is null; `ssh_identity_file` is already through the sentinel
mapping (the configured "None" string becomes `none`). -/
structure HostConfigC where
  host_id : Option String
  hostname : Option String
  ssh_identity_file : Option String
  deriving DecidableEq, Repr

/-- The `SSHHost` handle constructed for each parsed entry. -/
structure SSHHostM where
  hostname : String
  identity : Option String
  deriving DecidableEq, Repr

/-- Loop body of `parse_host_configs`; the hosts dictionary is an
association list in insertion order. -/
def parseHostLoop : List HostConfigC → List (String × SSHHostM) →
    Int × List (String × SSHHostM)
  | [], hosts => (0, hosts)
  | hc :: rest, hosts =>
    match hc.host_id with
    | none => (-1, hosts)
    | some host_id =>
      match hc.hostname with
      | none => (-1, hosts)
      | some hostname =>
        if host_id ∈ hosts.map Prod.fst then (-1, hosts)
        else parseHostLoop rest
          (hosts ++ [(host_id, ⟨hostname, hc.ssh_identity_file⟩)])

/-- `parse_host_configs(config, config_fpath, hosts)`: a missing
`ssh_hosts` key succeeds with the dictionary unchanged. -/
def parse_host_configs (host_configs : Option (List HostConfigC))
    (hosts : List (String × SSHHostM)) : Int × List (String × SSHHostM) :=
  match host_configs with
  | none => (0, hosts)
  | some configs => parseHostLoop configs hosts

/-! ### `esmon_do_build` (esmon_build.py lines 752-1006) -/

/-- The recognized top-level configuration keys.  A missing config file is
the record with every field `none` (`esmon_common.config_value` of a null
config yields `None` for every key).  `centos6_host` holds the `host_id`
value of the sub-config when the key is present. -/
structure BuildConfigM where
  ssh_hosts : Option (List HostConfigC)
  centos6_host : Option (Option String)
  collectd_git_url : Option String
  collectd_git_branch : Option String

/-- Result of `esmon_do_build`/`esmon_build`: `ret = none` models an
uncaught Python exception (the `list.remove(x)` calls raise `ValueError`
when `x` is absent from the listing). -/
structure DoBuildRes where
  ret : Option Int
  trace : List Act

/-- Python `list.remove`: `none` when the element is absent (raises). -/
def pyListRemove (files : List String) (x : String) : Option (List String) :=
  if x ∈ files then some (files.erase x) else none

def pyListRemoveAll (files : List String) : List String → Option (List String)
  | [] => some files
  | x :: rest =>
    match pyListRemove files x with
    | none => none
    | some files => pyListRemoveAll files rest

/-- Stale-entry removal loops of lines 939-952 and 963-976. -/
def removeExtras (rmExtraOk : String → Bool) (lh dir : String) :
    List String → List Act → Int × List Act
  | [], tr => (0, tr)
  | f :: rest, tr =>
    let tr := tr ++ [Act.run lh ("rm -fr " ++ dir ++ "/" ++ f)]
    if rmExtraOk f then removeExtras rmExtraOk lh dir rest tr
    else (-1, tr)

/-- The two hard-coded third-party server RPMs of lines 907-915, in
insertion order. -/
def serverRpms : List (String × String) :=
  [("grafana-6.0.2-1.x86_64.rpm",
    "https://dl.grafana.com/oss/release/grafana-6.0.2-1.x86_64.rpm"),
   ("influxdb-1.7.4.x86_64.rpm",
    "https://dl.influxdata.com/influxdb/releases/influxdb-1.7.4.x86_64.rpm")]

/-- Download-if-absent loop of lines 917-934. -/
def serverRpmsLoop (w : DBWorld) (lh dir : String) :
    List (String × String) → List Act → Int × List Act
  | [], tr => (0, tr)
  | (name, url) :: rest, tr =>
    let fpath := dir ++ "/" ++ name
    let tr := tr ++ [Act.run lh ("test -e " ++ fpath)]
    if w.serverExists name then serverRpmsLoop w lh dir rest tr
    else
      let tr := tr ++ [Act.run lh ("cd " ++ dir ++
        " && wget --no-check-certificate " ++ url)]
      if w.wgetOk name then serverRpmsLoop w lh dir rest tr
      else (-1, tr)

/-- `esmon_do_build(current_dir, relative_workspace, config, config_fpath)`.
The config-file path parameter only feeds log messages and is omitted. -/
def esmon_do_build (w : DBWorld) (client server install : List String)
    (current_dir relative_workspace : String) (cfg : BuildConfigM) :
    DoBuildRes :=
  match parse_host_configs cfg.ssh_hosts [] with
  | (pret, hosts) =>
    if pret ≠ 0 then ⟨some (-1), []⟩ else
    match
      (match cfg.centos6_host with
       | none => some none
       | some id? =>
         match id? with
         | none => none
         | some c6id =>
           match List.lookup c6id hosts with
           | none => none
           | some h => some (some h)) with
    | none => ⟨some (-1), []⟩
    | some centos6_host =>
      if w.localDistro ≠ DISTRO_RHEL7 then ⟨some (-1), []⟩ else
      let iso_cached_dir := current_dir ++ "/../iso_cached_dir"
      let collectd_git_path := current_dir ++ "/../collectd.git"
      let rpm_dir := iso_cached_dir ++ "/RPMS"
      let tr := [Act.run "localhost" ("mkdir -p " ++ rpm_dir)]
      if ¬ w.mkdirRpmOk then ⟨some (-1), tr⟩ else
      let collectd_git_url :=
        cfg.collectd_git_url.getD "https://github.com/DDNStorage/collectd.git"
      let collectd_git_branch := cfg.collectd_git_branch.getD "master-ddn"
      let tr := tr ++ [Act.clone collectd_git_path collectd_git_url collectd_git_branch]
      if ¬ w.cloneOk then ⟨some (-1), tr⟩ else
      let tr := tr ++ [Act.run "localhost" ("cd " ++ collectd_git_path ++
        " && git rev-parse --short HEAD")]
      match w.gitRev with
      | none => ⟨some (-1), tr⟩
      | some revOut =>
      let collectd_git_version := revOut.trim
      let tr := tr ++ [Act.run "localhost" ("cd " ++ collectd_git_path ++
        " && grep Version contrib/redhat/collectd.spec | grep -v \\# | awk \x27\x7bprint $2\x7d\x27")]
      match w.grepVersion with
      | none => ⟨some (-1), tr⟩
      | some versionOut =>
      let collectd_version :=
        versionOut.trim.replace "%\x7b?rev\x7d" collectd_git_version
      let collectd_tarball_name := "collectd-" ++ collectd_version
      let tr := tr ++ [Act.run "localhost" ("cd " ++ collectd_git_path ++
        " && grep Release contrib/redhat/collectd.spec | grep -v \\# | awk \x27\x7bprint $2\x7d\x27")]
      match w.grepRelease with
      | none => ⟨some (-1), tr⟩
      | some relOut =>
      let collectd_release := (relOut.trim.replace "%\x7b?dist\x7d" "")
      let collectd_version_release := collectd_version ++ "-" ++ collectd_release
      let centos6_workspace := ESMON_BUILD_LOG_DIR ++ "/" ++ relative_workspace
      match
        (match centos6_host with
         | none => some tr
         | some h =>
           match host_build w.hbC6 w.c6cfs w.c6dfs client server install
             centos6_workspace h.hostname w.c6Distro "localhost"
             collectd_git_path iso_cached_dir collectd_version_release
             collectd_tarball_name DISTRO_RHEL6 with
           | (ret, btr) => if ret ≠ 0 then none else some (tr ++ btr)) with
      | none =>
        ⟨some (-1),
          tr ++ (match centos6_host with
                 | none => []
                 | some h =>
                   (host_build w.hbC6 w.c6cfs w.c6dfs client server install
                     centos6_workspace h.hostname w.c6Distro "localhost"
                     collectd_git_path iso_cached_dir collectd_version_release
                     collectd_tarball_name DISTRO_RHEL6).2)⟩
      | some tr =>
      let local_workspace := current_dir ++ "/" ++ relative_workspace
      match host_build w.hbL w.lcfs w.ldfs client server install
        local_workspace "localhost" w.localDistro "localhost"
        collectd_git_path iso_cached_dir collectd_version_release
        collectd_tarball_name DISTRO_RHEL7 with
      | (lret, ltr) =>
      let tr := tr ++ ltr
      if lret ≠ 0 then ⟨some (-1), tr⟩ else
      let local_distro_rpm_dir := iso_cached_dir ++ "/" ++ RPM_STRING ++ "/" ++ DISTRO_RHEL7
      let local_server_rpm_dir := local_distro_rpm_dir ++ "/" ++ SERVER_STRING
      let tr := tr ++ [Act.run "localhost" ("mkdir -p " ++ local_server_rpm_dir)]
      if ¬ w.mkdirServerOk then ⟨some (-1), tr⟩ else
      match serverRpmsLoop w "localhost" local_server_rpm_dir serverRpms tr with
      | (sret, tr) =>
      if sret ≠ 0 then ⟨some (-1), tr⟩ else
      match pyListRemoveAll w.serverListdir (serverRpms.map Prod.fst) with
      | none => ⟨none, tr⟩
      | some server_existing_files =>
      match removeExtras w.rmServerExtraOk "localhost" local_server_rpm_dir
        server_existing_files tr with
      | (rret, tr) =>
      if rret ≠ 0 then ⟨some (-1), tr⟩ else
      match esmon_download_grafana_plugins w "localhost" iso_cached_dir
        w.plugins tr with
      | (gret, tr) =>
      if gret ≠ 0 then ⟨some (-1), tr⟩ else
      match pyListRemoveAll w.isoListdir (w.plugins.map Prod.fst ++ ["RPMS"]) with
      | none => ⟨none, tr⟩
      | some dependent_existing_files =>
      match removeExtras w.rmIsoExtraOk "localhost" iso_cached_dir
        dependent_existing_files tr with
      | (iret, tr) =>
      if iret ≠ 0 then ⟨some (-1), tr⟩ else
      let tr := tr ++ [Act.run "localhost" ("cd " ++ current_dir ++
        " && rm esmon-*.tar.bz2 esmon-*.tar.gz -f && sh autogen.sh && " ++
        "./configure --with-cached-iso=" ++ iso_cached_dir ++ " && make")]
      if ¬ w.makeOk then ⟨some (-1), tr⟩ else
      match centos6_host with
      | none => ⟨some 0, tr⟩
      | some h =>
        let tr := tr ++ [Act.run h.hostname ("rm -fr " ++ centos6_workspace)]
        if ¬ w.rmC6WsOk then ⟨some (-1), tr⟩ else ⟨some 0, tr⟩

/-! ### `esmon_build` and the build entry point (esmon_build.py
lines 1009-1101) -/

/-- World oracle for the build entry point. -/
structure BMainWorld where
  /-- the run's timestamp identity string -/
  identity : String
  /-- `os.getcwd()` -/
  cwd : String
  /-- `os.path.exists(local_log_dir)` -/
  logDirExists : Bool
  /-- `os.path.isdir(local_log_dir)` -/
  logDirIsDir : Bool
  /-- `os.path.exists(local_workspace)` -/
  wsExists : Bool
  /-- `os.path.isdir(local_workspace)` -/
  wsIsDir : Bool
  /-- `os.path.exists(config_fpath)` -/
  configExists : Bool
  /-- `yaml.load` succeeds on the config file -/
  yamlOk : Bool
  /-- the parsed configuration -/
  parsedCfg : BuildConfigM
  db : DBWorld
  client : List String
  server : List String
  install : List String

/-- The all-`none` configuration used when no config file exists
(`config = None`; `esmon_common.config_value(None, key)` yields `None`). -/
def emptyConfig : BuildConfigM := ⟨none, none, none, none⟩

/-- `esmon_build(current_dir, relative_workspace, config_fpath)`
(lines 1009-1029). -/
def esmon_build (w : BMainWorld) (current_dir relative_workspace : String)
    (config_fpath : Option String) : DoBuildRes :=
  match config_fpath with
  | none =>
    esmon_do_build w.db w.client w.server w.install current_dir
      relative_workspace emptyConfig
  | some _ =>
    if ¬ w.yamlOk then ⟨some (-1), []⟩ else
    esmon_do_build w.db w.client w.server w.install current_dir
      relative_workspace w.parsedCfg

/-- Outcome of the build entry point.  `exit = none` models an uncaught
exception; otherwise it is the `sys.exit` status.  `cfgArg` is the value
of `config_fpath` after argument handling (before the existence check). -/
structure BMainRes where
  exit : Option Int
  usagePrinted : Bool
  buildInvoked : Bool
  cfgArg : String
  trace : List Act

/-- The build entry point `main()` (lines 1040-1101), as a function of
`sys.argv`. -/
def build_main (w : BMainWorld) (argv : List String) : BMainRes :=
  let config_fpath :=
    if argv.length = 2 then argv.getD 1 ESMON_BUILD_CONFIG else ESMON_BUILD_CONFIG
  if 2 < argv.length then ⟨some (-1), true, false, config_fpath, []⟩ else
  if w.logDirExists ∧ ¬ w.logDirIsDir then
    ⟨some (-1), false, false, config_fpath, []⟩ else
  if w.wsExists ∧ ¬ w.wsIsDir then
    ⟨some (-1), false, false, config_fpath, []⟩ else
  let build_log_dir := "build_esmon"
  let relative_workspace := build_log_dir ++ "/" ++ w.identity
  let cfgOpt := if w.configExists then some config_fpath else none
  match esmon_build w w.cwd relative_workspace cfgOpt with
  | eb =>
    match eb.ret with
    | none => ⟨none, false, true, config_fpath, eb.trace⟩
    | some r =>
      if r ≠ 0 then ⟨some r, false, true, config_fpath, eb.trace⟩
      else ⟨some 0, false, true, config_fpath, eb.trace⟩

/-! ### The install pipeline (esmon_install.py) -/

/-- World oracle for the install entry point and its helpers. -/
structure IWorld where
  /-- the `grep ... /etc/esmon_install.conf | ...` pipeline of
  `iso_path_in_config`: `none` when the command fails, otherwise the
  stdout split into lines -/
  grepIso : Option (List String)
  /-- Modelled from the spec: `esmon_install_common.find_iso_path_in_cwd`
  (outside this tree) discovers an ISO in the current directory -/
  isoInCwd : Option String
  /-- Modelled from the spec: `utils.random_word(8)` (outside this tree),
  the random mount-point suffix -/
  mntWord : String
  /-- the `mkdir -p mnt && mount -o loop iso mnt` command exits zero -/
  mountOk : Bool
  /-- `ls` of the dependent RPM dir inside the ISO: `none` when the
  command fails, otherwise the stdout tokens -/
  lsDep : Option (List String)
  /-- Modelled from the spec: `re.match(esmon_common.RPM_PATTERN_RHEL7 %
  name, fname)` (pattern outside this tree) -/
  rpmPattern : String → String → Bool
  /-- Modelled from the spec: `sh_rpm_query(name)` runs `rpm -q name` on
  the host and returns its exit status: `0` exactly when the RPM is
  installed (the convention `dependency_do_install` relies on) -/
  rpmQuery : String → Int
  /-- `rpm -ivh fname` exits zero -/
  rpmIvhOk : String → Bool
  /-- `umount mnt` exits zero -/
  umountOk : Bool
  /-- `rmdir mnt` exits zero -/
  rmdirOk : Bool
  /-- a Python `import` of this module succeeds on the local host -/
  importOk : String → Bool
  /-- Modelled from the spec: `esmon_common.ESMON_INSTALL_DEPENDENT_RPMS`
  (outside this tree), the required install-time RPM names -/
  installRpms : List String

/-- The config-file grep command of `iso_path_in_config` (lines 20-21). -/
def isoGrepCmd : String :=
  "grep -v ^\\# /etc/esmon_install.conf | grep ^iso_path: | awk \x27\x7bprint $2\x7d\x27"

/-- `iso_path_in_config(local_host)` (lines 15-37).  The function builds
its own localhost handle, so the command always runs on "localhost". -/
def iso_path_in_config (w : IWorld) : Option String × List Act :=
  let tr := [Act.run "localhost" isoGrepCmd]
  match w.grepIso with
  | none => (none, tr)
  | some lines =>
    match lines with
    | [l] => (some l, tr)
    | _ => (none, tr)

/-- `EsmonInstallServer.eis_rpm_install(name)` (lines 53-100).  `cache` is
the lazily populated `eis_rpm_dependent_fnames` listing; the updated cache
is returned. -/
def eis_rpm_install (w : IWorld) (host iso_dir : String)
    (cache : Option (List String)) (name : String) :
    Int × Option (List String) × List Act :=
  let rpm_dir := iso_dir ++ "/" ++ "RPMS/" ++ DISTRO_RHEL7 ++ "/dependent"
  match
    (match cache with
     | some fnames => some (fnames, ([] : List Act))
     | none =>
       match w.lsDep with
       | none => none
       | some fnames => some (fnames, [Act.run host ("ls " ++ rpm_dir)])) with
  | none => (-1, none, [Act.run host ("ls " ++ rpm_dir)])
  | some (fnames, tr) =>
    match fnames.find? (fun f => w.rpmPattern name f) with
    | none => (-1, some fnames, tr)
    | some matched_fname =>
      let tr := tr ++ [Act.run host ("cd " ++ rpm_dir ++ " && rpm -ivh " ++ matched_fname)]
      if w.rpmIvhOk matched_fname then (0, some fnames, tr)
      else (-1, some fnames, tr)

/-- Loop of `dependency_do_install` (lines 108-116) over the required
install-time RPMs, threading the listing cache. -/
def ddiLoop (w : IWorld) (host mnt : String) :
    List String → Option (List String) → List Act → Int × List Act
  | [], _, tr => (0, tr)
  | r :: rest, cache, tr =>
    if w.rpmQuery r = 0 then ddiLoop w host mnt rest cache tr
    else
      match eis_rpm_install w host mnt cache r with
      | (ret, cache2, itr) =>
        if ret ≠ 0 then (-1, tr ++ itr)
        else ddiLoop w host mnt rest cache2 (tr ++ itr)

/-- `dependency_do_install(local_host, mnt_path)` (lines 103-117). -/
def dependency_do_install (w : IWorld) (host mnt : String) : Int × List Act :=
  ddiLoop w host mnt w.installRpms none []

/-- `dependency_install(local_host)` (lines 120-175): resolve the ISO
path, mount, install, then always unmount and remove the mount point,
folding cleanup failures into the result. -/
def dependency_install (w : IWorld) (host : String) : Int × List Act :=
  match iso_path_in_config w with
  | (iso0, tr0) =>
    match
      (match iso0 with
       | some p => some p
       | none => w.isoInCwd) with
    | none => (-1, tr0)
    | some iso_path =>
      let mnt_path := "/mnt/" ++ w.mntWord
      let tr := tr0 ++ [Act.run host ("mkdir -p " ++ mnt_path ++
        " && mount -o loop " ++ iso_path ++ " " ++ mnt_path)]
      if ¬ w.mountOk then (-1, tr) else
      match dependency_do_install w host mnt_path with
      | (iret, itr) =>
        let tr := tr ++ itr
        let ret := iret
        let tr := tr ++ [Act.run host ("umount " ++ mnt_path)]
        let ret := if ¬ w.umountOk then (-1 : Int) else ret
        let tr := tr ++ [Act.run host ("rmdir " ++ mnt_path)]
        let ret := if ¬ w.rmdirOk then (-1 : Int) else ret
        (ret, tr)

/-- The import-checked python libraries of the install entry point
(lines 185-208): module name and the dependency recorded when the import
fails. -/
def installPyMods : List (String × String) :=
  [("yaml", "PyYAML"), ("requests", "python-requests"),
   ("filelock", "python2-filelock"), ("slugify", "python-slugify"),
   ("dateutil", "python-dateutil")]

/-- Outcome of the install entry point.  The function never calls
`sys.exit`; `exit = some 0` means `main` returned (the process then exits
with status 0), `exit = none` means control was handed to
`esmon_install_nodeps.main()` (outside this tree). -/
structure IMainRes where
  exit : Option Int
  provisioned : Bool
  delegated : Bool
  trace : List Act

/-- The install entry point `main()` (esmon_install.py lines 178-223).
Note the membership test of line 213: a dependency is recorded as missing
when `sh_rpm_query` returns zero. -/
def install_main (w : IWorld) : IMainRes :=
  let missing_dependencies :=
    installPyMods.filterMap (fun m => if w.importOk m.1 then none else some m.2)
  let missing_dependencies := missing_dependencies ++
    w.installRpms.filter (fun r => w.rpmQuery r = 0)
  if missing_dependencies.length ≠ 0 then
    match dependency_install w "localhost" with
    | (ret, tr) =>
      if ret ≠ 0 then ⟨some 0, true, false, tr⟩
      else ⟨none, true, true, tr⟩
  else ⟨none, false, true, []⟩

/-! ### Concrete worlds used to evaluate the model on specific runs -/

/-- A dependency-download world for one required package `bar` whose cached
archive has checksum `bbb` while the installed package records `aaa`; every
remote operation succeeds and the downloader writes content with checksum
`aaa`. -/
def c1World : DepWorld :=
  { yumdbSyncOk := true, lsOk := true, yumInstallOk := true,
    rpmQ := fun r => if r = "bar" then some ["bar-1.0-1.el6"] else none,
    yumdbSha := fun f => if f = "bar-1.0-1.el6" then some "aaa" else none,
    removeOk := fun _ => true,
    downloadOk := fun _ => true,
    downloadSha := fun r => if r = "bar" then some "aaa" else none }

/-- Initial dependent-directory contents for the `c1World` run: the one
cached archive with the wrong checksum. -/
def c1Fs : List (String × String) := [("bar-1.0-1.el6.rpm", "bbb")]

/-- Two required packages: `bar` cached with a wrong checksum, `baz` cached
with the correct one. -/
def c2World : DepWorld :=
  { yumdbSyncOk := true, lsOk := true, yumInstallOk := true,
    rpmQ := fun r => if r = "bar" then some ["bar-1.0-1.el6"]
      else if r = "baz" then some ["baz-2.0-1.el6"] else none,
    yumdbSha := fun f => if f = "bar-1.0-1.el6" then some "aaa"
      else if f = "baz-2.0-1.el6" then some "ccc" else none,
    removeOk := fun _ => true,
    downloadOk := fun _ => true,
    downloadSha := fun r => if r = "bar" then some "aaa" else none }

/-- Initial directory for the `c2World` run. -/
def c2Fs : List (String × String) :=
  [("bar-1.0-1.el6.rpm", "bbb"), ("baz-2.0-1.el6.rpm", "ccc")]

/-- A `collectd_build` world in which every operation succeeds (the listing
oracle is irrelevant for the runs below). -/
def trivCB : CBWorld :=
  { sendOk := true, buildOk := true, lsTarball := none, retarOk := true,
    mkdirSrcOk := true, rpmbuildOk := true, mkdirLocalOk := true,
    rmLocalOk := true, getOk := true, mvOk := true }

/-- A `collectd_build_check` world whose commands all succeed. -/
def trivCBC : CBCWorld :=
  { lsOk := true, cb := trivCB, postLs := none, rmOk := fun _ => true }

/-- A dependency-download world whose commands all succeed. -/
def trivDep : DepWorld :=
  { yumdbSyncOk := true, lsOk := true, yumInstallOk := true,
    rpmQ := fun _ => none, yumdbSha := fun _ => none,
    removeOk := fun _ => true, downloadOk := fun _ => true,
    downloadSha := fun _ => none }

/-- A `host_build` world whose commands all succeed. -/
def trivHB : HBWorld :=
  { cbc := trivCBC, dep := trivDep, yumUpdateOk := true,
    grepI686Found := false, rpmEI686Ok := true, yumInstallOk := true,
    mkdirWsOk := true, testEZero := false, testDZero := false,
    rmDepFileOk := true, sendDepOk := true, mkdirHostDepOk := true,
    rmMkCopyingOk := true, getDepOk := true, finalMvOk := true }

/-- An `esmon_do_build` world whose local host reports the first
recognized distribution instead of the required second one. -/
def c10World : DBWorld :=
  { localDistro := DISTRO_RHEL6, c6Distro := DISTRO_RHEL6,
    hbC6 := trivHB, c6cfs := [], c6dfs := [],
    hbL := trivHB, lcfs := [], ldfs := [],
    mkdirRpmOk := true, cloneOk := true, gitRev := none,
    grepVersion := none, grepRelease := none, mkdirServerOk := true,
    serverExists := fun _ => true, wgetOk := fun _ => true,
    serverListdir := [], rmServerExtraOk := fun _ => true,
    plugins := [], pluginTestE := fun _ => true,
    pluginCloneOk := fun _ => true, pluginPullOk := fun _ => true,
    pluginFilenames := [], pluginFileExists := fun _ _ => true,
    isoListdir := [], rmIsoExtraOk := fun _ => true,
    makeOk := true, rmC6WsOk := true }

/-- A build entry-point world over `c10World` with no config file. -/
def c8World : BMainWorld :=
  { identity := "2020-01-01-00_00_00", cwd := "/work",
    logDirExists := false, logDirIsDir := false,
    wsExists := false, wsIsDir := false,
    configExists := false, yamlOk := true, parsedCfg := emptyConfig,
    db := c10World, client := [], server := [], install := [] }

/-- An install world in which neither the config file nor the current
directory yields an ISO path. -/
def c6WorldA : IWorld :=
  { grepIso := none, isoInCwd := none, mntWord := "ABCDEFGH",
    mountOk := true, lsDep := none, rpmPattern := fun _ _ => false,
    rpmQuery := fun _ => 1, rpmIvhOk := fun _ => true,
    umountOk := true, rmdirOk := true, importOk := fun _ => true,
    installRpms := [] }

/-- An install world with a configured ISO, a successful mount, and a
failing unmount. -/
def c6WorldB : IWorld :=
  { grepIso := some ["/root/a.iso"], isoInCwd := none, mntWord := "ABCDEFGH",
    mountOk := true, lsDep := none, rpmPattern := fun _ _ => false,
    rpmQuery := fun _ => 0, rpmIvhOk := fun _ => true,
    umountOk := false, rmdirOk := true, importOk := fun _ => true,
    installRpms := ["x"] }

/-- An install world in which every python library imports fine and every
required RPM is installed (`sh_rpm_query` returns 0 throughout), i.e.
nothing at all is missing; a mount failure stops the (unnecessary)
provisioning attempt. -/
def c4World : IWorld :=
  { grepIso := none, isoInCwd := some "/root/e.iso", mntWord := "ABCDEFGH",
    mountOk := false, lsDep := none, rpmPattern := fun _ _ => false,
    rpmQuery := fun _ => 0, rpmIvhOk := fun _ => false,
    umountOk := true, rmdirOk := true, importOk := fun _ => true,
    installRpms := ["erpm1", "erpm2"] }

/-- An install world whose dependency provisioning fails fatally (no ISO
can be found anywhere). -/
def c5World : IWorld :=
  { grepIso := none, isoInCwd := none, mntWord := "ABCDEFGH",
    mountOk := true, lsDep := none, rpmPattern := fun _ _ => false,
    rpmQuery := fun _ => 0, rpmIvhOk := fun _ => true,
    umountOk := true, rmdirOk := true, importOk := fun _ => true,
    installRpms := ["erpm"] }

/-- Host config list with a duplicated identifier. -/
def c9DupConfigs : List HostConfigC :=
  [⟨some "h1", some "node1", none⟩, ⟨some "h1", some "node2", none⟩]

/-- Well-formed host config list with two distinct identifiers. -/
def c9GoodConfigs : List HostConfigC :=
  [⟨some "h1", some "node1", none⟩, ⟨some "h2", some "node2", some "/id"⟩]

/-- Version-release string used to evaluate the cache-check. -/
def c7Vr : String := "5.8.1-1"

/-- A fully cached collectd RPM directory: the seven expected archives plus
one stale entry that does not match the prune pattern. -/
def c7Fs : List String := collectdRpmFullnames c7Vr "7" ++ ["stale.txt"]

/-! ## Theorems -/

/-- C1: a successful `download_dependent_rpms` run over a cache whose one
archive has a mismatched checksum deletes the file, re-downloads it and
re-verifies it — but then deletes the re-downloaded file again in the final
stale-eviction pass (the mismatched name is never dropped from
`existing_rpm_fnames`), returning 0 with the dependent directory empty.
This contradicts the claim that the re-downloaded file is still present
when the function returns 0. -/
theorem c1_redownloaded_file_evicted :
    (download_dependent_rpms c1World c1Fs "build1" "/var/dep" DISTRO_RHEL6
      ["bar"] [] []).1 = 0 ∧
    (download_dependent_rpms c1World c1Fs "build1" "/var/dep" DISTRO_RHEL6
      ["bar"] [] []).2.1 = [] ∧
    (download_dependent_rpms c1World c1Fs "build1" "/var/dep" DISTRO_RHEL6
      ["bar"] [] []).2.2 =
      [Act.run "build1" "yumdb sync",
       Act.run "build1" "ls /var/dep",
       Act.run "build1" "yum install -y bar",
       Act.run "build1" "rpm -q bar",
       Act.removeFile "build1" "/var/dep/bar-1.0-1.el6.rpm",
       Act.run "build1" "cd /var/dep && yumdownloader -x \\*i686 --archlist=x86_64 bar",
       Act.removeFile "build1" "/var/dep/bar-1.0-1.el6.rpm"] := by
  decide

/-- C2: after a successful `download_dependent_rpms` run with packages
`bar` (cached with wrong checksum) and `baz` (cached correctly), the
directory holds only `baz`'s archive: the re-downloaded `bar` archive was
evicted again, so the directory does not contain exactly one
correctly-checksummed file per required package although the function
returned 0. -/
theorem c2_missing_package_file_after_success :
    (download_dependent_rpms c2World c2Fs "build1" "/var/dep" DISTRO_RHEL6
      ["bar", "baz"] [] []).1 = 0 ∧
    (download_dependent_rpms c2World c2Fs "build1" "/var/dep" DISTRO_RHEL6
      ["bar", "baz"] [] []).2.1 = [("baz-2.0-1.el6.rpm", "ccc")] := by
  decide

/-- C3 (counterexample): with the unrecognized distribution identifier
"rhel8", `collectd_build_check` does issue a shell command on the local
host (the `mkdir -p && ls` of its cache directory) before failing, so the
claim that it returns a failure without issuing any remote or local shell
command is false. -/
theorem c3_check_issues_local_command :
    ("rhel8" ≠ DISTRO_RHEL6 ∧ "rhel8" ≠ DISTRO_RHEL7) ∧
    (collectd_build_check trivCBC ["x.rpm"] "/ws" "bh" "lh" "/git" "/iso"
      "5.8.1-1" "collectd-5.8.1" "rhel8").ret = -1 ∧
    (collectd_build_check trivCBC ["x.rpm"] "/ws" "bh" "lh" "/git" "/iso"
      "5.8.1-1" "collectd-5.8.1" "rhel8").trace =
      [Act.run "lh" "mkdir -p /iso/RPMS/rhel8/collectd && ls /iso/RPMS/rhel8/collectd"] := by
  decide

/-- C3 (amended): for every distribution identifier other than the two
recognized ones, `collectd_build` and `host_build` return -1 immediately
with an empty action trace (no shell command, no file transfer; for
`host_build` this uses the spec-modelled fact that the build host reports
one of the two recognized identifiers), while `collectd_build_check`
returns -1 and performs no build, after issuing exactly one local
directory-create-and-list command and no command on the build host. -/
theorem c3_unknown_distro_fails_early (w1 : CBWorld) (w2 : CBCWorld)
    (w3 : HBWorld) (fs0 cfs : List String) (dfs : List (String × String))
    (client server install : List String)
    (ws bh bdistro lh git iso vr tname distro : String)
    (h6 : distro ≠ DISTRO_RHEL6) (h7 : distro ≠ DISTRO_RHEL7)
    (hb : bdistro = DISTRO_RHEL6 ∨ bdistro = DISTRO_RHEL7) :
    collectd_build w1 ws bh lh git iso tname distro = (-1, []) ∧
    (collectd_build_check w2 fs0 ws bh lh git iso vr tname distro).ret = -1 ∧
    (collectd_build_check w2 fs0 ws bh lh git iso vr tname distro).built = false ∧
    (collectd_build_check w2 fs0 ws bh lh git iso vr tname distro).trace =
      [Act.run lh ("mkdir -p " ++
        (iso ++ "/" ++ RPM_STRING ++ "/" ++ distro ++ "/" ++ COLLECTD_STRING) ++
        " && ls " ++
        (iso ++ "/" ++ RPM_STRING ++ "/" ++ distro ++ "/" ++ COLLECTD_STRING))] ∧
    host_build w3 cfs dfs client server install ws bh bdistro lh git iso vr
      tname distro = (-1, []) := by
  have hdn : distroNumber distro = none := by
    simp [distroNumber, h6, h7]
  have hne : distro ≠ bdistro := by
    rcases hb with hb | hb <;> rw [hb] <;> assumption
  refine ⟨?_, ?_, ?_, ?_, ?_⟩
  · simp [collectd_build, hdn]
  · rcases Bool.eq_false_or_eq_true w2.lsOk with h | h <;>
      simp [collectd_build_check, hdn, h]
  · rcases Bool.eq_false_or_eq_true w2.lsOk with h | h <;>
      simp [collectd_build_check, hdn, h]
  · rcases Bool.eq_false_or_eq_true w2.lsOk with h | h <;>
      simp [collectd_build_check, hdn, h]
  · simp [host_build, hne]

/-- C3 (witness): the amended statement evaluated at the concrete
unrecognized identifier "rhel8" against a RHEL7 build host. -/
theorem c3_unknown_distro_fails_early_witness :
    collectd_build trivCB "/ws" "bh" "lh" "/git" "/iso" "collectd-5.8.1"
      "rhel8" = (-1, []) ∧
    (collectd_build_check trivCBC ["y.rpm"] "/ws" "bh" "lh" "/git" "/iso2"
      "5.8.1-1" "collectd-5.8.1" "rhel8").ret = -1 ∧
    (collectd_build_check trivCBC ["y.rpm"] "/ws" "bh" "lh" "/git" "/iso2"
      "5.8.1-1" "collectd-5.8.1" "rhel8").built = false ∧
    (collectd_build_check trivCBC ["y.rpm"] "/ws" "bh" "lh" "/git" "/iso2"
      "5.8.1-1" "collectd-5.8.1" "rhel8").trace =
      [Act.run "lh" ("mkdir -p " ++
        ("/iso2" ++ "/" ++ RPM_STRING ++ "/" ++ "rhel8" ++ "/" ++ COLLECTD_STRING) ++
        " && ls " ++
        ("/iso2" ++ "/" ++ RPM_STRING ++ "/" ++ "rhel8" ++ "/" ++ COLLECTD_STRING))] ∧
    host_build trivHB [] [] [] [] [] "/ws" "bh" DISTRO_RHEL7 "lh" "/git"
      "/iso" "5.8.1-1" "collectd-5.8.1" "rhel8" = (-1, []) :=
  c3_unknown_distro_fails_early trivCB trivCBC trivHB ["y.rpm"] [] [] [] [] []
    "/ws" "bh" DISTRO_RHEL7 "lh" "/git" "/iso2" "5.8.1-1" "collectd-5.8.1"
    "rhel8" (by decide) (by decide) (Or.inr rfl)

/-- C4: with every supporting python library importable and every required
RPM installed (`sh_rpm_query` returning 0 for each), nothing is missing,
yet the install entry point still performs the dependency-provisioning
step: line 213 of esmon_install.py records a dependency as missing exactly
when the query reports it installed (the opposite of the convention
`dependency_do_install` uses at line 110), contradicting the claimed
"if and only if at least one required package is missing". -/
theorem c4_provisions_when_nothing_missing :
    (∀ m ∈ installPyMods, c4World.importOk m.1 = true) ∧
    (∀ r ∈ c4World.installRpms, c4World.rpmQuery r = 0) ∧
    (install_main c4World).provisioned = true := by
  decide

/-- C5: a run of the install entry point whose dependency provisioning
fails fatally (`dependency_install` returns -1 because no ISO can be
found) still makes `main` return normally — the process exit status is 0,
not the claimed non-zero value -1, because esmon_install.py line 221 `return`s
without any `sys.exit`. -/
theorem c5_fatal_install_failure_exits_zero :
    (dependency_install c5World "localhost").1 = -1 ∧
    (install_main c5World).exit = some 0 ∧
    (install_main c5World).provisioned = true ∧
    (install_main c5World).delegated = false := by
  decide

/-- The trace of `iso_path_in_config` is always the single config-grep
command. -/
theorem iso_path_in_config_snd (w : IWorld) :
    (iso_path_in_config w).2 = [Act.run "localhost" isoGrepCmd] := by
  unfold iso_path_in_config
  rcases w.grepIso with _ | ls
  · rfl
  · rcases ls with _ | ⟨l, _ | _⟩ <;> rfl

/-- C6: `dependency_install` fails before issuing any mount command when no
ISO path can be determined (its whole trace is the single config-grep
command), and whenever an ISO path is determined and the mount command
succeeds, the unmount and mount-directory-removal commands are issued
after the installation step regardless of its outcome, with a failing
unmount or rmdir turning the overall result into -1. -/
theorem c6_dependency_install_mount_bracket (w : IWorld) (host : String) :
    ((iso_path_in_config w).1 = none → w.isoInCwd = none →
      dependency_install w host = (-1, [Act.run "localhost" isoGrepCmd])) ∧
    (∀ p, ((iso_path_in_config w).1 = some p ∨
           ((iso_path_in_config w).1 = none ∧ w.isoInCwd = some p)) →
      w.mountOk = true →
      dependency_install w host =
        (if ¬ w.rmdirOk then (-1 : Int) else if ¬ w.umountOk then (-1 : Int)
         else (dependency_do_install w host ("/mnt/" ++ w.mntWord)).1,
         [Act.run "localhost" isoGrepCmd,
          Act.run host ("mkdir -p " ++ ("/mnt/" ++ w.mntWord) ++
            " && mount -o loop " ++ p ++ " " ++ ("/mnt/" ++ w.mntWord))] ++
         (dependency_do_install w host ("/mnt/" ++ w.mntWord)).2 ++
         [Act.run host ("umount " ++ ("/mnt/" ++ w.mntWord)),
          Act.run host ("rmdir " ++ ("/mnt/" ++ w.mntWord))])) := by
  have htr := iso_path_in_config_snd w
  constructor
  · intro h1 h2
    unfold dependency_install
    rcases hip : iso_path_in_config w with ⟨iso0, tr0⟩
    rw [hip] at h1 htr
    simp only at h1 htr
    subst h1
    simp [h2, htr]
  · intro p hp hm
    unfold dependency_install
    rcases hip : iso_path_in_config w with ⟨iso0, tr0⟩
    rw [hip] at hp htr
    simp only at hp htr
    subst htr
    rcases hdd : dependency_do_install w host ("/mnt/" ++ w.mntWord)
      with ⟨iret, itr⟩
    rcases hp with hp | ⟨hp, hcwd⟩
    · subst hp
      simp [hm, hdd]
    · subst hp
      simp [hcwd, hm, hdd]

/-- C6 (witness): the no-ISO case evaluated at a world with neither a
configured nor a discovered ISO, and the mount-success case evaluated at a
world with a configured ISO and a failing unmount. -/
theorem c6_dependency_install_mount_bracket_witness :
    dependency_install c6WorldA "localhost" =
      (-1, [Act.run "localhost" isoGrepCmd]) ∧
    dependency_install c6WorldB "localhost" =
      (if ¬ c6WorldB.rmdirOk then (-1 : Int)
       else if ¬ c6WorldB.umountOk then (-1 : Int)
       else (dependency_do_install c6WorldB "localhost"
         ("/mnt/" ++ c6WorldB.mntWord)).1,
       [Act.run "localhost" isoGrepCmd,
        Act.run "localhost" ("mkdir -p " ++ ("/mnt/" ++ c6WorldB.mntWord) ++
          " && mount -o loop " ++ "/root/a.iso" ++ " " ++
          ("/mnt/" ++ c6WorldB.mntWord))] ++
       (dependency_do_install c6WorldB "localhost"
         ("/mnt/" ++ c6WorldB.mntWord)).2 ++
       [Act.run "localhost" ("umount " ++ ("/mnt/" ++ c6WorldB.mntWord)),
        Act.run "localhost" ("rmdir " ++ ("/mnt/" ++ c6WorldB.mntWord))]) :=
  ⟨(c6_dependency_install_mount_bracket c6WorldA "localhost").1 rfl rfl,
   (c6_dependency_install_mount_bracket c6WorldB "localhost").2 "/root/a.iso"
     (Or.inl rfl) rfl⟩

/-- When at most one argument is given, the build entry point never prints
usage and records as configuration path the single argument when present,
the default path otherwise. -/
theorem build_main_no_usage (w : BMainWorld) (argv : List String)
    (h3 : ¬ 2 < argv.length) :
    (build_main w argv).cfgArg =
      (if argv.length = 2 then argv.getD 1 ESMON_BUILD_CONFIG
       else ESMON_BUILD_CONFIG) ∧
    (build_main w argv).usagePrinted = false := by
  unfold build_main
  rw [if_neg h3]
  refine ⟨?_, ?_⟩ <;>
    · split_ifs <;>
        first
          | rfl
          | (dsimp only
             split <;> first | rfl | (split_ifs <;> rfl))

/-- C8: the build entry point accepts zero or one command-line argument:
with one argument that argument becomes the configuration file path, with
zero arguments the default path is used, and with more than one argument
it prints the usage message and exits with status -1 without invoking the
build (and without issuing any action). -/
theorem c8_build_main_arguments (w : BMainWorld) (prog : String)
    (args : List String) :
    (2 ≤ args.length →
      build_main w (prog :: args) =
        ⟨some (-1), true, false, ESMON_BUILD_CONFIG, []⟩) ∧
    (∀ a, args = [a] →
      (build_main w (prog :: args)).cfgArg = a ∧
      (build_main w (prog :: args)).usagePrinted = false) ∧
    (args = [] →
      (build_main w (prog :: args)).cfgArg = ESMON_BUILD_CONFIG ∧
      (build_main w (prog :: args)).usagePrinted = false) := by
  refine ⟨?_, ?_, ?_⟩
  · intro h
    have h2 : ¬ ((prog :: args).length = 2) := by
      simp only [List.length_cons]
      omega
    have h3 : 2 < (prog :: args).length := by
      simp only [List.length_cons]
      omega
    unfold build_main
    rw [if_neg h2, if_pos h3]
  · intro a ha
    subst ha
    have h3 : ¬ 2 < ([prog, a] : List String).length := by
      simp
    have h := build_main_no_usage w [prog, a] h3
    rw [h.1, h.2]
    simp
  · intro ha
    subst ha
    have h3 : ¬ 2 < ([prog] : List String).length := by
      simp
    have h := build_main_no_usage w [prog] h3
    rw [h.1, h.2]
    simp

/-- C8 (witness): the argument handling evaluated at a concrete world with
two arguments, one argument, and no argument. -/
theorem c8_build_main_arguments_witness :
    build_main c8World ["prog", "a", "b"] =
      ⟨some (-1), true, false, ESMON_BUILD_CONFIG, []⟩ ∧
    (build_main c8World ["prog", "a"]).cfgArg = "a" ∧
    (build_main c8World ["prog", "a"]).usagePrinted = false ∧
    (build_main c8World ["prog"]).cfgArg = ESMON_BUILD_CONFIG ∧
    (build_main c8World ["prog"]).usagePrinted = false :=
  ⟨(c8_build_main_arguments c8World "prog" ["a", "b"]).1 (by decide),
   ((c8_build_main_arguments c8World "prog" ["a"]).2.1 "a" rfl).1,
   ((c8_build_main_arguments c8World "prog" ["a"]).2.1 "a" rfl).2,
   ((c8_build_main_arguments c8World "prog" []).2.2 rfl).1,
   ((c8_build_main_arguments c8World "prog" []).2.2 rfl).2⟩

/-- Invariant of the `parse_host_configs` loop: a successful run requires a
present identifier in every entry, appends exactly those identifiers to
the dictionary keys in order, and keeps the key list duplicate-free. -/
theorem parseHostLoop_ok (configs : List HostConfigC) :
    ∀ hosts : List (String × SSHHostM),
      (hosts.map Prod.fst).Nodup →
      (parseHostLoop configs hosts).1 = 0 →
      (parseHostLoop configs hosts).2.map Prod.fst =
        hosts.map Prod.fst ++ configs.filterMap (fun hc => hc.host_id) ∧
      (configs.filterMap (fun hc => hc.host_id)).length = configs.length ∧
      ((parseHostLoop configs hosts).2.map Prod.fst).Nodup := by
  induction configs with
  | nil =>
    intro hosts hnd _
    simp [parseHostLoop, hnd]
  | cons hc rest ih =>
    intro hosts hnd h
    rcases hid : hc.host_id with _ | id
    · rw [parseHostLoop, hid] at h
      simp at h
    rcases hhn : hc.hostname with _ | hn
    · rw [parseHostLoop, hid, hhn] at h
      simp at h
    by_cases hmem : id ∈ hosts.map Prod.fst
    · rw [parseHostLoop, hid, hhn] at h
      dsimp only at h
      rw [if_pos hmem] at h
      simp at h
    have step : parseHostLoop (hc :: rest) hosts =
        parseHostLoop rest (hosts ++ [(id, ⟨hn, hc.ssh_identity_file⟩)]) := by
      rw [parseHostLoop, hid, hhn]
      dsimp only
      rw [if_neg hmem]
    have hnd' : (((hosts ++ [(id, (⟨hn, hc.ssh_identity_file⟩ : SSHHostM))]).map
        Prod.fst)).Nodup := by
      rw [List.map_append]
      simp [List.nodup_append, hnd, hmem]
    rw [step] at h ⊢
    obtain ⟨h1, h2, h3⟩ := ih _ hnd' h
    refine ⟨?_, ?_, h3⟩
    · rw [h1, List.map_append]
      simp [List.filterMap_cons, hid]
    · simp [List.filterMap_cons, hid, h2]

/-- C9: `parse_host_configs` fails (non-zero result) whenever two host
descriptors carry the same identifier, and on success the produced host
dictionary holds exactly one handle per configured identifier (its key
list is exactly the configured identifier list, every descriptor
contributed one, and it has no duplicates). -/
theorem c9_parse_host_configs_unique_ids (configs : List HostConfigC) :
    (¬ (configs.filterMap (fun hc => hc.host_id)).Nodup →
      (parse_host_configs (some configs) []).1 ≠ 0) ∧
    ((parse_host_configs (some configs) []).1 = 0 →
      (parse_host_configs (some configs) []).2.map Prod.fst =
        configs.filterMap (fun hc => hc.host_id) ∧
      (configs.filterMap (fun hc => hc.host_id)).length = configs.length ∧
      ((parse_host_configs (some configs) []).2.map Prod.fst).Nodup) := by
  have hbase : (([] : List (String × SSHHostM)).map Prod.fst).Nodup := by
    simp
  have hpc : parse_host_configs (some configs) [] = parseHostLoop configs [] := rfl
  rw [hpc]
  constructor
  · intro hdup hzero
    obtain ⟨h1, _, h3⟩ := parseHostLoop_ok configs [] hbase hzero
    rw [h1] at h3
    simp at h3
    exact hdup h3
  · intro hzero
    obtain ⟨h1, h2, h3⟩ := parseHostLoop_ok configs [] hbase hzero
    simp at h1
    rw [h1]
    exact ⟨rfl, h2, h1 ▸ h3⟩

/-- C9 (witness): a duplicated identifier is rejected; a well-formed
two-host configuration yields exactly the two configured identifiers. -/
theorem c9_parse_host_configs_unique_ids_witness :
    (parse_host_configs (some c9DupConfigs) []).1 ≠ 0 ∧
    ((parse_host_configs (some c9GoodConfigs) []).2.map Prod.fst =
      c9GoodConfigs.filterMap (fun hc => hc.host_id) ∧
     (c9GoodConfigs.filterMap (fun hc => hc.host_id)).length =
       c9GoodConfigs.length ∧
     ((parse_host_configs (some c9GoodConfigs) []).2.map Prod.fst).Nodup) :=
  ⟨(c9_parse_host_configs_unique_ids c9DupConfigs).1 (by decide),
   (c9_parse_host_configs_unique_ids c9GoodConfigs).2 (by decide)⟩

/-- C10: whenever the local host's distribution is not the second
recognized one (RHEL7), `esmon_do_build` returns -1 having performed no
action at all — in particular the collectd repository is never cloned and
no build command is run, whatever the configuration says (configuration
parsing errors also abort before any action). -/
theorem c10_esmon_do_build_requires_rhel7 (w : DBWorld)
    (client server install : List String)
    (current_dir relative_workspace : String) (cfg : BuildConfigM)
    (h : w.localDistro ≠ DISTRO_RHEL7) :
    (esmon_do_build w client server install current_dir relative_workspace
      cfg).ret = some (-1) ∧
    (esmon_do_build w client server install current_dir relative_workspace
      cfg).trace = [] := by
  unfold esmon_do_build
  rcases hp : parse_host_configs cfg.ssh_hosts [] with ⟨pret, hosts⟩
  dsimp only
  by_cases hz : pret ≠ 0
  · rw [if_pos hz]
    exact ⟨rfl, rfl⟩
  · rw [if_neg hz]
    rcases h6 : cfg.centos6_host with _ | id?
    · dsimp only
      rw [if_pos h]
      exact ⟨rfl, rfl⟩
    · rcases id? with _ | c6id
      · exact ⟨rfl, rfl⟩
      · dsimp only
        rcases hl : List.lookup c6id hosts with _ | hh
        · exact ⟨rfl, rfl⟩
        · dsimp only
          rw [if_pos h]
          exact ⟨rfl, rfl⟩

/-- C10 (witness): the early failure evaluated at a concrete world whose
local host reports the first recognized distribution. -/
theorem c10_esmon_do_build_requires_rhel7_witness :
    (esmon_do_build c10World [] [] [] "/cur" "rel" emptyConfig).ret =
      some (-1) ∧
    (esmon_do_build c10World [] [] [] "/cur" "rel" emptyConfig).trace = [] :=
  c10_esmon_do_build_requires_rhel7 c10World [] [] [] "/cur" "rel"
    emptyConfig (by decide)

theorem str_append_right_cancel (a b s : String) (h : a ++ s = b ++ s) :
    a = b := by
  have hd : (a ++ s).data = (b ++ s).data := congrArg String.data h
  rw [String.data_append, String.data_append] at hd
  exact String.ext (List.append_cancel_right hd)

/-- The seven expected collectd RPM file names are pairwise distinct for
every version-release and distro number. -/
theorem collectdRpmFullnames_nodup (vr dn : String) :
    (collectdRpmFullnames vr dn).Nodup := by
  have hinj : Function.Injective
      (fun n => n ++ ("-" ++ vr ++ ".el" ++ dn ++ ".x86_64.rpm")) := by
    intro a b hab
    exact str_append_right_cancel a b _ hab
  have hnames : COLLECTD_RPM_NAMES.Nodup := by decide
  have hmap := hnames.map hinj
  have heq : COLLECTD_RPM_NAMES.map
      (fun n => n ++ ("-" ++ vr ++ ".el" ++ dn ++ ".x86_64.rpm")) =
      collectdRpmFullnames vr dn := by
    unfold collectdRpmFullnames
    apply List.map_congr_left
    intro n _
    simp [String.append_assoc]
  rw [heq] at hmap
  exact hmap

/-- When every expected name is present in a duplicate-free listing, the
presence-check loop succeeds and returns the listing without them. -/
theorem checkLoop_all_present (es : List String) :
    ∀ fs : List String, es.Nodup → fs.Nodup → (∀ e ∈ es, e ∈ fs) →
      checkLoop es fs = some (fs.filter (fun f => decide (f ∉ es))) := by
  induction es with
  | nil =>
    intro fs _ _ _
    simp [checkLoop]
  | cons e es ih =>
    intro fs hes hfs hsub
    have hefs : e ∈ fs := hsub e (by simp)
    rw [checkLoop, if_pos hefs]
    have hes' : es.Nodup := hes.of_cons
    have hene : e ∉ es := by
      intro hmem
      exact (List.nodup_cons.mp hes).1 hmem
    have hsub' : ∀ x ∈ es, x ∈ fs.erase e := by
      intro x hx
      have hxe : x ≠ e := by
        intro hq
        exact hene (hq ▸ hx)
      exact (List.mem_erase_of_ne hxe).mpr (hsub x (List.mem_cons_of_mem e hx))
    rw [ih (fs.erase e) hes' (hfs.erase e) hsub']
    congr 1
    rw [hfs.erase_eq_filter e, List.filter_filter]
    apply List.filter_congr
    intro x _
    by_cases hxe : x = e
    · subst hxe
      simp
    · simp [hxe, List.mem_cons]

/-- With every removal succeeding, the prune pass returns 0 and removes
exactly the pattern-mismatched entries of the leftover list. -/
theorem pruneLoop_removes_mismatched (w : CBCWorld) (lh lcrd vr dn : String)
    (hrm : ∀ p, w.rmOk p = true) :
    ∀ (leftover fs : List String) (tr : List Act), fs.Nodup →
      (pruneLoop w lh lcrd vr dn leftover fs tr).1 = 0 ∧
      (pruneLoop w lh lcrd vr dn leftover fs tr).2.1 =
        fs.filter (fun f => decide (f ∉ leftover) || collectdRpmMatch vr dn f) := by
  intro leftover
  induction leftover with
  | nil =>
    intro fs tr hfs
    simp [pruneLoop]
  | cons f rest ih =>
    intro fs tr hfs
    by_cases hm : collectdRpmMatch vr dn f = true
    · rw [pruneLoop, if_pos hm]
      obtain ⟨h1, h2⟩ := ih fs tr hfs
      refine ⟨h1, ?_⟩
      rw [h2]
      apply List.filter_congr
      intro x _
      by_cases hxf : x = f
      · subst hxf
        simp [hm, List.mem_cons]
      · simp [hxf, List.mem_cons]
    · rw [pruneLoop, if_neg hm, if_pos (hrm (lcrd ++ "/" ++ f))]
      obtain ⟨h1, h2⟩ := ih (fs.erase f) (tr ++ [Act.run lh ("rm -f " ++ (lcrd ++ "/" ++ f))]) (hfs.erase f)
      refine ⟨h1, ?_⟩
      rw [h2, hfs.erase_eq_filter f, List.filter_filter]
      apply List.filter_congr
      intro x _
      by_cases hxf : x = f
      · subst hxf
        simp [List.mem_cons]
        exact Bool.eq_false_iff.mpr hm
      · simp [hxf, List.mem_cons]

/-- A fully cached run of `collectd_build_check`: with every expected RPM
name present in the duplicate-free cache listing, the result is success
without any build, and the directory keeps exactly the expected names and
the pattern-matching extras. -/
theorem cbc_cached_run (w : CBCWorld) (fs0 : List String)
    (workspace bh lh git iso vr tname distro dn : String)
    (hdn : distroNumber distro = some dn)
    (hls : w.lsOk = true)
    (hrm : ∀ p, w.rmOk p = true)
    (hnd : fs0.Nodup)
    (hsub : ∀ e ∈ collectdRpmFullnames vr dn, e ∈ fs0) :
    (collectd_build_check w fs0 workspace bh lh git iso vr tname distro).ret
      = 0 ∧
    (collectd_build_check w fs0 workspace bh lh git iso vr tname
      distro).built = false ∧
    (collectd_build_check w fs0 workspace bh lh git iso vr tname distro).fs =
      fs0.filter (fun f => decide (f ∈ collectdRpmFullnames vr dn) ||
        collectdRpmMatch vr dn f) := by
  unfold collectd_build_check
  rw [hls, hdn]
  dsimp only
  rw [checkLoop_all_present (collectdRpmFullnames vr dn) fs0
    (collectdRpmFullnames_nodup vr dn) hnd hsub]
  dsimp only
  rcases hpl : pruneLoop w lh
    (iso ++ "/" ++ RPM_STRING ++ "/" ++ distro ++ "/" ++ COLLECTD_STRING) vr dn
    (fs0.filter (fun f => decide (f ∉ collectdRpmFullnames vr dn))) fs0
    [Act.run lh ("mkdir -p " ++
      (iso ++ "/" ++ RPM_STRING ++ "/" ++ distro ++ "/" ++ COLLECTD_STRING) ++
      " && ls " ++
      (iso ++ "/" ++ RPM_STRING ++ "/" ++ distro ++ "/" ++ COLLECTD_STRING))]
    with ⟨r, f1, t1⟩
  obtain ⟨h1, h2⟩ := pruneLoop_removes_mismatched w lh
    (iso ++ "/" ++ RPM_STRING ++ "/" ++ distro ++ "/" ++ COLLECTD_STRING) vr dn
    hrm
    (fs0.filter (fun f => decide (f ∉ collectdRpmFullnames vr dn))) fs0
    [Act.run lh ("mkdir -p " ++
      (iso ++ "/" ++ RPM_STRING ++ "/" ++ distro ++ "/" ++ COLLECTD_STRING) ++
      " && ls " ++
      (iso ++ "/" ++ RPM_STRING ++ "/" ++ distro ++ "/" ++ COLLECTD_STRING))]
    hnd
  rw [hpl] at h1 h2
  simp only at h1 h2
  subst h1
  refine ⟨rfl, rfl, ?_⟩
  simp only
  rw [h2]
  apply List.filter_congr
  intro x hx
  by_cases hxe : x ∈ collectdRpmFullnames vr dn
  · simp [hxe, List.mem_filter, hx]
  · simp [hxe, List.mem_filter, hx]

/-- C7: when the local collectd RPM cache already holds a correctly-named
RPM for every expected package/version-release/distro combination,
`collectd_build_check` succeeds without ever invoking `collectd_build`,
and the cache keeps exactly its previous files except that entries outside
the expected set that do not match the prune pattern are removed; running
it again on the resulting state again performs no build action and leaves
the file set unchanged. -/
theorem c7_collectd_build_check_idempotent (w : CBCWorld) (fs0 : List String)
    (workspace bh lh git iso vr tname distro dn : String)
    (hdn : distroNumber distro = some dn)
    (hls : w.lsOk = true)
    (hrm : ∀ p, w.rmOk p = true)
    (hnd : fs0.Nodup)
    (hsub : ∀ e ∈ collectdRpmFullnames vr dn, e ∈ fs0) :
    (collectd_build_check w fs0 workspace bh lh git iso vr tname distro).ret
      = 0 ∧
    (collectd_build_check w fs0 workspace bh lh git iso vr tname
      distro).built = false ∧
    (collectd_build_check w fs0 workspace bh lh git iso vr tname distro).fs =
      fs0.filter (fun f => decide (f ∈ collectdRpmFullnames vr dn) ||
        collectdRpmMatch vr dn f) ∧
    (collectd_build_check w
      (fs0.filter (fun f => decide (f ∈ collectdRpmFullnames vr dn) ||
        collectdRpmMatch vr dn f))
      workspace bh lh git iso vr tname distro).ret = 0 ∧
    (collectd_build_check w
      (fs0.filter (fun f => decide (f ∈ collectdRpmFullnames vr dn) ||
        collectdRpmMatch vr dn f))
      workspace bh lh git iso vr tname distro).built = false ∧
    (collectd_build_check w
      (fs0.filter (fun f => decide (f ∈ collectdRpmFullnames vr dn) ||
        collectdRpmMatch vr dn f))
      workspace bh lh git iso vr tname distro).fs =
      fs0.filter (fun f => decide (f ∈ collectdRpmFullnames vr dn) ||
        collectdRpmMatch vr dn f) := by
  obtain ⟨h1, h2, h3⟩ := cbc_cached_run w fs0 workspace bh lh git iso vr
    tname distro dn hdn hls hrm hnd hsub
  have hnd1 : (fs0.filter (fun f =>
      decide (f ∈ collectdRpmFullnames vr dn) ||
        collectdRpmMatch vr dn f)).Nodup := hnd.filter _
  have hsub1 : ∀ e ∈ collectdRpmFullnames vr dn,
      e ∈ fs0.filter (fun f => decide (f ∈ collectdRpmFullnames vr dn) ||
        collectdRpmMatch vr dn f) := by
    intro e he
    exact List.mem_filter.mpr ⟨hsub e he, by simp [he]⟩
  obtain ⟨g1, g2, g3⟩ := cbc_cached_run w
    (fs0.filter (fun f => decide (f ∈ collectdRpmFullnames vr dn) ||
      collectdRpmMatch vr dn f))
    workspace bh lh git iso vr tname distro dn hdn hls hrm hnd1 hsub1
  refine ⟨h1, h2, h3, g1, g2, ?_⟩
  rw [g3, List.filter_filter]
  apply List.filter_congr
  intro x _
  exact Bool.and_self _

/-- C7 (witness): the cached run evaluated at the concrete version-release
`5.8.1-1` on RHEL7 with the seven expected archives plus one stale
entry. -/
theorem c7_collectd_build_check_idempotent_witness :
    (collectd_build_check trivCBC c7Fs "/ws" "bh" "lh" "/git" "/iso" c7Vr
      "collectd-5.8.1" DISTRO_RHEL7).ret = 0 ∧
    (collectd_build_check trivCBC c7Fs "/ws" "bh" "lh" "/git" "/iso" c7Vr
      "collectd-5.8.1" DISTRO_RHEL7).built = false ∧
    (collectd_build_check trivCBC c7Fs "/ws" "bh" "lh" "/git" "/iso" c7Vr
      "collectd-5.8.1" DISTRO_RHEL7).fs =
      c7Fs.filter (fun f => decide (f ∈ collectdRpmFullnames c7Vr "7") ||
        collectdRpmMatch c7Vr "7" f) ∧
    (collectd_build_check trivCBC
      (c7Fs.filter (fun f => decide (f ∈ collectdRpmFullnames c7Vr "7") ||
        collectdRpmMatch c7Vr "7" f))
      "/ws" "bh" "lh" "/git" "/iso" c7Vr "collectd-5.8.1" DISTRO_RHEL7).ret
      = 0 ∧
    (collectd_build_check trivCBC
      (c7Fs.filter (fun f => decide (f ∈ collectdRpmFullnames c7Vr "7") ||
        collectdRpmMatch c7Vr "7" f))
      "/ws" "bh" "lh" "/git" "/iso" c7Vr "collectd-5.8.1" DISTRO_RHEL7).built
      = false ∧
    (collectd_build_check trivCBC
      (c7Fs.filter (fun f => decide (f ∈ collectdRpmFullnames c7Vr "7") ||
        collectdRpmMatch c7Vr "7" f))
      "/ws" "bh" "lh" "/git" "/iso" c7Vr "collectd-5.8.1" DISTRO_RHEL7).fs =
      c7Fs.filter (fun f => decide (f ∈ collectdRpmFullnames c7Vr "7") ||
        collectdRpmMatch c7Vr "7" f) :=
  c7_collectd_build_check_idempotent trivCBC c7Fs "/ws" "bh" "lh" "/git"
    "/iso" c7Vr "collectd-5.8.1" DISTRO_RHEL7 "7" rfl rfl (fun _ => rfl)
    (by decide) (by decide)
